import Mathlib

/-!
# Frame processing engine

A shallow embedding of `FrameProcessor` (`app/src/main/cpp/frame_processor.h`,
`app/src/main/cpp/frame_processor.cpp`) and of the part of OpenCV that its methods call.

Conventions of the embedding.

* A `cv::Mat` is a two-dimensional matrix of 8-bit elements: its header (`rows`, `cols`,
  number of channels) and its element bytes in row-major order; `data = none` is the null data
  pointer of a matrix without storage.
* C++ `int` values are integers, and arithmetic on them is reduced to the 32-bit
  two's-complement range where the source computes in `int`: `processedFrameCount++` takes
  `INT_MAX` to `INT_MIN`, and `height + height/2` wraps.
* `lastProcessingTime` holds the difference of two millisecond clock readings, an integral
  value; the two readings of `getTimeMs()` are arguments of the call.
* A `double` threshold is carried as its bit pattern: the engine hands it to `cv::Canny`
  and never computes with it.
* Every OpenCV routine that needs storage asks an `Allocator`; a denied request is the
  `cv::Exception` that the `catch` blocks of the engine turn into `return false`.
* The element values computed by `cv::GaussianBlur`, `cv::Canny` and the YUV conversion are
  left to a `PixelKernels` argument; the shape of their result and the conditions under which
  they raise are modelled here.
-/

/-- An IEEE-754 binary64 value, carried as its bit pattern. -/
structure Double where
  bits : Nat
deriving DecidableEq

/-- The matrix type `cv::Mat`, restricted to two dimensions and depth `CV_8U`. -/
structure Mat where
  rows : Int
  cols : Int
  channels : Nat
  data : Option (List Nat)
deriving DecidableEq

/-- The default-constructed `cv::Mat()`: no rows, no columns, type `CV_8UC1`, null data. -/
def Mat.header : Mat := ⟨0, 0, 1, none⟩

/-- The number of pixels, `cv::Mat::total()`. -/
def Mat.total (m : Mat) : Int := m.rows * m.cols

/-- The test `cv::Mat::empty()`: `data == 0 || total() == 0`. -/
def Mat.empty (m : Mat) : Bool := m.data.isNone || m.total == 0

/-- The byte at offset `i` of the element storage. -/
def Mat.byteAt (m : Mat) (i : Nat) : Nat := (m.data.getD []).getD i 0

/-- The size in bytes of the storage of a `rows x cols` matrix of type `CV_8UC(channels)`. -/
def Mat.byteSize (rows cols : Int) (channels : Nat) : Nat := (rows * cols * channels).toNat

/-- The value of an integer in 32-bit two's-complement `int` arithmetic. -/
def wrapInt32 (x : Int) : Int := (x + 2147483648) % 4294967296 - 2147483648

/-- The increment `c++` of a 32-bit `int`: the successor, `INT_MAX` wrapping to `INT_MIN`. -/
def incrInt32 (c : Int) : Int := if c = 2147483647 then -2147483648 else c + 1

/-- The outcome of the storage requests of one call: `alloc k n` tells whether the `k`-th
request, of `n` bytes, is granted. -/
abbrev Allocator := Nat → Nat → Bool

/-- The allocator of a process with memory to spare: every request is granted. -/
def grantAll : Allocator := fun _ _ => true

/-- The allocator of a process that has run out of memory: every request is denied. -/
def denyAll : Allocator := fun _ _ => false

/-- The allocator of a process whose whole address space is `2^47` bytes. -/
def addressSpace47 : Allocator := fun _ n => decide (n ≤ 2 ^ 47)

/-- The routine `cv::Mat::create(rows, cols, type)`. A matrix that already has storage of the
requested size and type is kept. Otherwise the matrix is released and resized (`setSize`
rejects a negative extent, columns first), and storage is requested when it has elements.
`Except.error` carries the matrix as the raised `cv::Exception` leaves it. -/
def Mat.create (m : Mat) (rows cols : Int) (channels : Nat) (granted : Bool) : Except Mat Mat :=
  if m.data.isSome ∧ m.channels = channels ∧ m.rows = rows ∧ m.cols = cols then .ok m
  else if cols < 0 then .error ⟨0, 0, channels, none⟩
  else if rows < 0 then .error ⟨0, cols, channels, none⟩
  else if rows * cols = 0 then .ok ⟨rows, cols, channels, none⟩
  else if granted then
    .ok ⟨rows, cols, channels, some (List.replicate (Mat.byteSize rows cols channels) 0)⟩
  else .error ⟨rows, cols, channels, none⟩

/-- The constructor `cv::Mat(rows, cols, type)`: `create` on a fresh header; `none` when it
raises. The fresh storage is uninitialised in C++; the embedding fills it with zeros. -/
def Mat.alloc (rows cols : Int) (channels : Nat) (granted : Bool) : Option Mat :=
  match Mat.create Mat.header rows cols channels granted with
  | .ok m => some m
  | .error _ => none

/-- The common tail of the OpenCV routines below: give `dst` the requested shape, then write
the computed elements into it. A denied storage request raises. -/
def Mat.fill (dst : Mat) (rows cols : Int) (channels : Nat) (pixels : List Nat)
    (granted : Bool) : Except Mat Mat :=
  match Mat.create dst rows cols channels granted with
  | .error d => .error d
  | .ok d => if granted then .ok { d with data := d.data.map (fun _ => pixels) } else .error d

/-- The conversion codes of `cv::cvtColor` that the engine uses. -/
inductive ColorConversionCodes where
  | COLOR_RGB2GRAY
  | COLOR_RGBA2GRAY
  | COLOR_YUV420p2RGB
deriving DecidableEq

/-- The element values of the OpenCV routines whose arithmetic is not embedded. -/
structure PixelKernels where
  yuv420p2rgb : Mat → List Nat
  gaussianBlur : Mat → List Nat
  canny : Mat → Double → Double → List Nat

/-- The 8-bit RGB to luma transform of OpenCV, in 15-bit fixed point:
`(uchar) CV_DESCALE(r * RY15 + g * GY15 + b * BY15, 15)`. -/
def rgb2gray (r g b : Nat) : Nat :=
  ((r * 9798 + g * 19235 + b * 3735 + 2 ^ 14) >>> 15) % 256

/-- The luma of every pixel of a 3- or 4-channel matrix, a fourth channel being skipped. -/
def grayPixels (src : Mat) : List Nat :=
  (List.range src.total.toNat).map fun i =>
    rgb2gray (src.byteAt (src.channels * i)) (src.byteAt (src.channels * i + 1))
      (src.byteAt (src.channels * i + 2))

/-- The routine `cv::cvtColor(src, dst, code)`. It raises on an empty source, on a source
whose channel count the code does not accept (3 or 4 for the two luma codes, 1 for the planar
YUV code), and for the YUV code on a width that is odd or a height that is no multiple
of 3. -/
def cvtColor (K : PixelKernels) (src dst : Mat) (code : ColorConversionCodes)
    (granted : Bool) : Except Mat Mat :=
  if src.empty then .error dst
  else
    match code with
    | .COLOR_RGB2GRAY | .COLOR_RGBA2GRAY =>
      if src.channels = 3 ∨ src.channels = 4 then
        Mat.fill dst src.rows src.cols 1 (grayPixels src) granted
      else .error dst
    | .COLOR_YUV420p2RGB =>
      if src.channels = 1 ∧ src.cols.tmod 2 = 0 ∧ src.rows.tmod 3 = 0 then
        Mat.fill dst ((wrapInt32 (src.rows * 2)).tdiv 3) src.cols 3 (K.yuv420p2rgb src) granted
      else .error dst

/-- The routine `cv::GaussianBlur(src, dst, cv::Size(5, 5), 1.4)`: the result has the size
and type of the source. -/
def GaussianBlur (K : PixelKernels) (src dst : Mat) (granted : Bool) : Except Mat Mat :=
  if src.empty then .error dst
  else Mat.fill dst src.rows src.cols src.channels (K.gaussianBlur src) granted

/-- The routine `cv::Canny(src, dst, threshold1, threshold2)`: the result is a single-channel
edge map of the size of the source. -/
def Canny (K : PixelKernels) (src dst : Mat) (threshold1 threshold2 : Double)
    (granted : Bool) : Except Mat Mat :=
  Mat.fill dst src.rows src.cols 1 (K.canny src threshold1 threshold2) granted

/-- The method `cv::Mat::copyTo(dst)`: an empty source releases the destination. -/
def Mat.copyTo (src dst : Mat) (granted : Bool) : Except Mat Mat :=
  if src.empty then .ok ⟨0, 0, dst.channels, none⟩
  else
    Mat.fill dst src.rows src.cols src.channels
      ((src.data.getD []).take (Mat.byteSize src.rows src.cols src.channels)) granted

/-- The fields of `class FrameProcessor`. -/
structure FrameProcessor where
  frameWidth : Int
  frameHeight : Int
  initialized : Bool
  lastProcessingTime : Int
  processedFrameCount : Int
  workingMat1 : Mat
  workingMat2 : Mat
  grayMat : Mat
deriving DecidableEq

/-- The constructor `FrameProcessor::FrameProcessor()`. -/
def FrameProcessor.new : FrameProcessor :=
  { frameWidth := 0, frameHeight := 0, initialized := false, lastProcessingTime := 0,
    processedFrameCount := 0, workingMat1 := Mat.header, workingMat2 := Mat.header,
    grayMat := Mat.header }

/-- The accessor `getLastProcessingTime()`. -/
def FrameProcessor.getLastProcessingTime (s : FrameProcessor) : Int := s.lastProcessingTime

/-- The accessor `getProcessedFrameCount()`. -/
def FrameProcessor.getProcessedFrameCount (s : FrameProcessor) : Int := s.processedFrameCount

/-- The method `FrameProcessor::initialize(width, height)`: the returned flag and the engine
afterwards. The dimensions are stored before the `try` block; each of the three matrices is
assigned once its constructor has returned. -/
def FrameProcessor.initialize (s : FrameProcessor) (width height : Int) (alloc : Allocator) :
    Bool × FrameProcessor :=
  if width ≤ 0 ∨ height ≤ 0 then (false, s)
  else
    let s0 := { s with frameWidth := width, frameHeight := height }
    match Mat.alloc height width 3 (alloc 0 (Mat.byteSize height width 3)) with
    | none => (false, s0)
    | some m1 =>
      let s1 := { s0 with workingMat1 := m1 }
      match Mat.alloc height width 1 (alloc 1 (Mat.byteSize height width 1)) with
      | none => (false, s1)
      | some m2 =>
        let s2 := { s1 with workingMat2 := m2 }
        match Mat.alloc height width 1 (alloc 2 (Mat.byteSize height width 1)) with
        | none => (false, s2)
        | some m3 => (true, { s2 with grayMat := m3, initialized := true })

/-- The method `FrameProcessor::processFrameCanny(input, output, threshold1, threshold2)`:
the returned flag, the engine afterwards and the output matrix afterwards. `clock0` and
`clock1` are the two readings of `getTimeMs()`. -/
def FrameProcessor.processFrameCanny (K : PixelKernels) (s : FrameProcessor)
    (input output : Mat) (threshold1 threshold2 : Double) (clock0 clock1 : Int)
    (alloc : Allocator) : Bool × FrameProcessor × Mat :=
  if !s.initialized || input.empty then (false, s, output)
  else
    let gray : Except Mat Mat :=
      if input.channels = 3 then
        cvtColor K input Mat.header .COLOR_RGB2GRAY
          (alloc 0 (Mat.byteSize input.rows input.cols 1))
      else if input.channels = 4 then
        cvtColor K input Mat.header .COLOR_RGBA2GRAY
          (alloc 0 (Mat.byteSize input.rows input.cols 1))
      else .ok input
    match gray with
    | .error _ => (false, s, output)
    | .ok grayFrame =>
      match GaussianBlur K grayFrame s.workingMat2
          (alloc 1 (Mat.byteSize grayFrame.rows grayFrame.cols grayFrame.channels)) with
      | .error blurred => (false, { s with workingMat2 := blurred }, output)
      | .ok blurred =>
        let s1 := { s with workingMat2 := blurred }
        match Canny K blurred output threshold1 threshold2
            (alloc 2 (Mat.byteSize blurred.rows blurred.cols 1)) with
        | .error out => (false, s1, out)
        | .ok out =>
          (true,
            { s1 with processedFrameCount := incrInt32 s1.processedFrameCount,
                      lastProcessingTime := clock1 - clock0 },
            out)

/-- The method `FrameProcessor::processFrameGrayscale(input, output)`. -/
def FrameProcessor.processFrameGrayscale (K : PixelKernels) (s : FrameProcessor)
    (input output : Mat) (clock0 clock1 : Int) (alloc : Allocator) :
    Bool × FrameProcessor × Mat :=
  if !s.initialized || input.empty then (false, s, output)
  else
    let converted : Except Mat Mat :=
      if input.channels = 3 then
        cvtColor K input output .COLOR_RGB2GRAY
          (alloc 0 (Mat.byteSize input.rows input.cols 1))
      else if input.channels = 4 then
        cvtColor K input output .COLOR_RGBA2GRAY
          (alloc 0 (Mat.byteSize input.rows input.cols 1))
      else
        Mat.copyTo input output
          (alloc 0 (Mat.byteSize input.rows input.cols input.channels))
    match converted with
    | .error out => (false, s, out)
    | .ok out =>
      (true,
        { s with processedFrameCount := incrInt32 s.processedFrameCount,
                 lastProcessingTime := clock1 - clock0 },
        out)

/-- The method `FrameProcessor::convertYUV420ToRGB(yuvData, rgbOutput, width, height)`;
`yuvData = none` is the null pointer. -/
def FrameProcessor.convertYUV420ToRGB (K : PixelKernels) (s : FrameProcessor)
    (yuvData : Option (List Nat)) (rgbOutput : Mat) (width height : Int)
    (alloc : Allocator) : Bool × FrameProcessor × Mat :=
  match yuvData with
  | none => (false, s, rgbOutput)
  | some bytes =>
    let yuvMat : Mat := ⟨wrapInt32 (height + height.tdiv 2), width, 1, some bytes⟩
    match cvtColor K yuvMat rgbOutput .COLOR_YUV420p2RGB
        (alloc 0 (Mat.byteSize ((wrapInt32 (yuvMat.rows * 2)).tdiv 3) width 3)) with
    | .error out => (false, s, out)
    | .ok out => (true, s, out)

/-- The method `FrameProcessor::convertRGBToGray(input, output)`. -/
def FrameProcessor.convertRGBToGray (K : PixelKernels) (s : FrameProcessor)
    (input output : Mat) (alloc : Allocator) : Bool × FrameProcessor × Mat :=
  if input.empty then (false, s, output)
  else
    match cvtColor K input output .COLOR_RGB2GRAY
        (alloc 0 (Mat.byteSize input.rows input.cols 1)) with
    | .error out => (false, s, out)
    | .ok out => (true, s, out)

/-- One call of a public method of the engine, with the arguments and the environment
(clock readings, storage requests) of that call. -/
inductive Call where
  | init (width height : Int) (alloc : Allocator)
  | canny (input output : Mat) (threshold1 threshold2 : Double) (clock0 clock1 : Int)
      (alloc : Allocator)
  | grayscale (input output : Mat) (clock0 clock1 : Int) (alloc : Allocator)
  | yuv420ToRGB (yuvData : Option (List Nat)) (rgbOutput : Mat) (width height : Int)
      (alloc : Allocator)
  | rgbToGray (input output : Mat) (alloc : Allocator)

/-- The returned flag of a call and the engine after it. -/
def FrameProcessor.call (K : PixelKernels) (s : FrameProcessor) : Call → Bool × FrameProcessor
  | .init w h a => FrameProcessor.initialize s w h a
  | .canny i o t1 t2 c0 c1 a =>
    ((s.processFrameCanny K i o t1 t2 c0 c1 a).1, (s.processFrameCanny K i o t1 t2 c0 c1 a).2.1)
  | .grayscale i o c0 c1 a =>
    ((s.processFrameGrayscale K i o c0 c1 a).1, (s.processFrameGrayscale K i o c0 c1 a).2.1)
  | .yuv420ToRGB d o w h a =>
    ((s.convertYUV420ToRGB K d o w h a).1, (s.convertYUV420ToRGB K d o w h a).2.1)
  | .rgbToGray i o a =>
    ((s.convertRGBToGray K i o a).1, (s.convertRGBToGray K i o a).2.1)

/-- The engine after a sequence of calls. -/
def FrameProcessor.run (K : PixelKernels) (s : FrameProcessor) : List Call → FrameProcessor
  | [] => s
  | c :: cs => FrameProcessor.run K (s.call K c).2 cs

/-- Whether some `initialize` call of the sequence returned success. -/
def FrameProcessor.everInitialized (K : PixelKernels) (s : FrameProcessor) : List Call → Bool
  | [] => false
  | c :: cs =>
    (match c with
      | .init _ _ _ => (s.call K c).1
      | _ => false) || FrameProcessor.everInitialized K (s.call K c).2 cs

/-- A kernel set for evaluating concrete calls: the blur keeps the bytes of its source, the
edge map marks no pixel, the YUV conversion yields no bytes. -/
def sampleKernels : PixelKernels :=
  { yuv420p2rgb := fun _ => []
    gaussianBlur := fun m => m.data.getD []
    canny := fun m _ _ => (m.data.getD []).map (fun _ => 0) }

/-- The frame of `rows x cols` pixels of `channels` channels whose every byte is `v`. -/
def Mat.uniform (rows cols channels v : Nat) : Mat :=
  ⟨rows, cols, channels, some (List.replicate (rows * cols * channels) v)⟩

/-- An engine initialized for 4x4 frames whose counter stands at `INT_MAX`. -/
def FrameProcessor.atIntMax : FrameProcessor :=
  { ( FrameProcessor.initialize FrameProcessor.new 4 4 grantAll).2 with
    processedFrameCount := 2147483647 }

/-- The sizing invariant of the scratch buffers: on an initialized engine `workingMat2` and
`grayMat` have `frameHeight` rows and `frameWidth` columns. -/
def FrameProcessor.scratchSized (s : FrameProcessor) : Prop :=
  s.initialized = true →
    (s.workingMat2.rows = s.frameHeight ∧ s.workingMat2.cols = s.frameWidth) ∧
      (s.grayMat.rows = s.frameHeight ∧ s.grayMat.cols = s.frameWidth)

instance (s : FrameProcessor) : Decidable s.scratchSized := by
  unfold FrameProcessor.scratchSized
  infer_instance

/-- A call that keeps to the negotiated frame: an `initialize` call with valid dimensions
obtains its three buffers, and a `processFrameCanny` call that passes the entry check is given
an input of `frameHeight` rows and `frameWidth` columns. The other calls are unrestricted. -/
def Call.negotiated (s : FrameProcessor) : Call → Prop
  | .init w h a => w ≤ 0 ∨ h ≤ 0 ∨ ( FrameProcessor.initialize s w h a).1 = true
  | .canny i _ _ _ _ _ _ =>
    s.initialized = true → i.empty = false → i.rows = s.frameHeight ∧ i.cols = s.frameWidth
  | _ => True

instance (s : FrameProcessor) (c : Call) : Decidable (c.negotiated s) := by
  cases c <;> unfold Call.negotiated <;> infer_instance

/-- A sequence of calls each of which keeps to the negotiated frame of the engine it meets. -/
def FrameProcessor.negotiatedRun (K : PixelKernels) (s : FrameProcessor) : List Call → Prop
  | [] => True
  | c :: cs => c.negotiated s ∧ FrameProcessor.negotiatedRun K (s.call K c).2 cs

/-- Deciding `negotiatedRun` call by call. -/
def FrameProcessor.decNegotiatedRun (K : PixelKernels) :
    (s : FrameProcessor) → (calls : List Call) → Decidable (s.negotiatedRun K calls)
  | _, [] => isTrue trivial
  | s, c :: cs =>
    @instDecidableAnd _ _ _ ( FrameProcessor.decNegotiatedRun K (s.call K c).2 cs)

instance (K : PixelKernels) (s : FrameProcessor) (calls : List Call) :
    Decidable (s.negotiatedRun K calls) :=
  FrameProcessor.decNegotiatedRun K s calls

/-! ## Helper lemmas -/

theorem initialize_invalid_eq (s : FrameProcessor) (width height : Int) (alloc : Allocator)
    (h : width ≤ 0 ∨ height ≤ 0) : FrameProcessor.initialize s width height alloc = (false, s) := by
  simp [ FrameProcessor.initialize, h]

theorem initialize_failed_flag (s : FrameProcessor) (width height : Int) (alloc : Allocator)
    (h : ( FrameProcessor.initialize s width height alloc).1 = false) :
    ( FrameProcessor.initialize s width height alloc).2.initialized = s.initialized := by
  unfold FrameProcessor.initialize at h ⊢
  split
  · rfl
  · simp only
    split
    · rfl
    · split
      · rfl
      · split
        · rfl
        · rename_i h1 _ _ _ _ _ _
          simp_all

theorem canny_flag (K : PixelKernels) (s : FrameProcessor) (input output : Mat)
    (t1 t2 : Double) (c0 c1 : Int) (alloc : Allocator) :
    (s.processFrameCanny K input output t1 t2 c0 c1 alloc).2.1.initialized = s.initialized := by
  unfold FrameProcessor.processFrameCanny
  split
  · rfl
  · simp only
    split
    · rfl
    · split
      · rfl
      · split <;> rfl

theorem grayscale_flag (K : PixelKernels) (s : FrameProcessor) (input output : Mat)
    (c0 c1 : Int) (alloc : Allocator) :
    (s.processFrameGrayscale K input output c0 c1 alloc).2.1.initialized = s.initialized := by
  unfold FrameProcessor.processFrameGrayscale
  split
  · rfl
  · simp only
    split <;> rfl

theorem yuv_state (K : PixelKernels) (s : FrameProcessor) (yuvData : Option (List Nat))
    (rgbOutput : Mat) (width height : Int) (alloc : Allocator) :
    (s.convertYUV420ToRGB K yuvData rgbOutput width height alloc).2.1 = s := by
  unfold FrameProcessor.convertYUV420ToRGB
  split
  · rfl
  · simp only
    split <;> rfl

theorem rgbToGray_state (K : PixelKernels) (s : FrameProcessor) (input output : Mat)
    (alloc : Allocator) : (s.convertRGBToGray K input output alloc).2.1 = s := by
  unfold FrameProcessor.convertRGBToGray
  split
  · rfl
  · split <;> rfl

theorem run_uninitialized (K : PixelKernels) (calls : List Call) :
    ∀ s : FrameProcessor, s.initialized = false →
      FrameProcessor.everInitialized K s calls = false →
      ( FrameProcessor.run K s calls).initialized = false := by
  induction calls with
  | nil => intro s hs _; simpa [FrameProcessor.run] using hs
  | cons c cs ih =>
    intro s hs hnever
    simp only [FrameProcessor.everInitialized, Bool.or_eq_false_iff] at hnever
    simp only [FrameProcessor.run]
    apply ih _ _ hnever.2
    cases c with
    | init w h a =>
      have hfail : ( FrameProcessor.initialize s w h a).1 = false := by
        simpa [FrameProcessor.call] using hnever.1
      simpa [FrameProcessor.call, hs] using initialize_failed_flag s w h a hfail
    | canny i o t1 t2 c0 c1 a => simpa [FrameProcessor.call, hs] using canny_flag K s i o t1 t2 c0 c1 a
    | grayscale i o c0 c1 a => simpa [FrameProcessor.call, hs] using grayscale_flag K s i o c0 c1 a
    | yuv420ToRGB d o w h a => simpa [FrameProcessor.call, yuv_state] using hs
    | rgbToGray i o a => simpa [FrameProcessor.call, rgbToGray_state] using hs

theorem fill_ok_dims (dst : Mat) (rows cols : Int) (channels : Nat) (pixels : List Nat)
    (granted : Bool) (d : Mat) (h : Mat.fill dst rows cols channels pixels granted = .ok d) :
    d.rows = rows ∧ d.cols = cols := by
  unfold Mat.fill Mat.create at h
  split_ifs at h with h1 h2 h3 h4 h5 <;> simp at h <;> try (split_ifs at h)
  all_goals first
    | (obtain ⟨_, rfl⟩ := h; simp; exact ⟨h1.2.2.1, h1.2.2.2⟩)
    | (subst h; simp)

theorem fill_error_dims (dst : Mat) (rows cols : Int) (channels : Nat) (pixels : List Nat)
    (granted : Bool) (d : Mat) (hr : 0 ≤ rows) (hc : 0 ≤ cols)
    (h : Mat.fill dst rows cols channels pixels granted = .error d) :
    d.rows = rows ∧ d.cols = cols := by
  unfold Mat.fill Mat.create at h
  split_ifs at h with h1 h2 h3 h4 h5 <;> simp at h <;> try (split_ifs at h)
  all_goals first
    | omega
    | (subst h; exact ⟨h1.2.2.1, h1.2.2.2⟩)
    | (subst h; simp)

theorem fill_granted (dst : Mat) (rows cols : Int) (channels : Nat) (pixels : List Nat)
    (hr : 0 < rows) (hc : 0 < cols) :
    Mat.fill dst rows cols channels pixels true = .ok ⟨rows, cols, channels, some pixels⟩ := by
  have hne : rows * cols ≠ 0 := (Int.mul_pos hr hc).ne.symm
  unfold Mat.fill Mat.create
  by_cases h1 : dst.data.isSome ∧ dst.channels = channels ∧ dst.rows = rows ∧ dst.cols = cols
  · obtain ⟨m, hm⟩ := Option.isSome_iff_exists.mp h1.1
    rcases dst with ⟨r, c, ch, dat⟩
    simp only at h1 hm
    obtain ⟨-, rfl, rfl, rfl⟩ := h1
    subst hm
    simp
  · rw [if_neg h1, if_neg (not_lt.mpr hc.le), if_neg (not_lt.mpr hr.le), if_neg hne]
    simp

theorem incrInt32_of_ne (c : Int) (h : c ≠ 2147483647) : incrInt32 c = c + 1 := by
  simp [incrInt32, h]

theorem canny_statistics (K : PixelKernels) (s : FrameProcessor) (input output : Mat)
    (t1 t2 : Double) (c0 c1 : Int) (alloc : Allocator) :
    ((s.processFrameCanny K input output t1 t2 c0 c1 alloc).1 = true ∧
        (s.processFrameCanny K input output t1 t2 c0 c1 alloc).2.1.processedFrameCount
          = incrInt32 s.processedFrameCount) ∨
      ((s.processFrameCanny K input output t1 t2 c0 c1 alloc).1 = false ∧
        (s.processFrameCanny K input output t1 t2 c0 c1 alloc).2.1.processedFrameCount
          = s.processedFrameCount ∧
        (s.processFrameCanny K input output t1 t2 c0 c1 alloc).2.1.lastProcessingTime
          = s.lastProcessingTime) := by
  unfold FrameProcessor.processFrameCanny
  split
  · simp
  · simp only
    split
    · simp
    · split
      · simp
      · split <;> simp

theorem grayscale_statistics (K : PixelKernels) (s : FrameProcessor) (input output : Mat)
    (c0 c1 : Int) (alloc : Allocator) :
    ((s.processFrameGrayscale K input output c0 c1 alloc).1 = true ∧
        (s.processFrameGrayscale K input output c0 c1 alloc).2.1.processedFrameCount
          = incrInt32 s.processedFrameCount) ∨
      ((s.processFrameGrayscale K input output c0 c1 alloc).1 = false ∧
        (s.processFrameGrayscale K input output c0 c1 alloc).2.1.processedFrameCount
          = s.processedFrameCount ∧
        (s.processFrameGrayscale K input output c0 c1 alloc).2.1.lastProcessingTime
          = s.lastProcessingTime) := by
  unfold FrameProcessor.processFrameGrayscale
  split
  · simp
  · simp only
    split <;> simp

theorem canny_uninitialized (K : PixelKernels) (s : FrameProcessor) (input output : Mat)
    (t1 t2 : Double) (c0 c1 : Int) (alloc : Allocator) (h : s.initialized = false) :
    s.processFrameCanny K input output t1 t2 c0 c1 alloc = (false, s, output) := by
  simp [FrameProcessor.processFrameCanny, h]

theorem grayscale_uninitialized (K : PixelKernels) (s : FrameProcessor) (input output : Mat)
    (c0 c1 : Int) (alloc : Allocator) (h : s.initialized = false) :
    s.processFrameGrayscale K input output c0 c1 alloc = (false, s, output) := by
  simp [FrameProcessor.processFrameGrayscale, h]

theorem alloc_granted (rows cols : Int) (channels : Nat) (hr : 0 < rows) (hc : 0 < cols) :
    Mat.alloc rows cols channels true
      = some ⟨rows, cols, channels,
          some (List.replicate (Mat.byteSize rows cols channels) 0)⟩ := by
  have hne : rows * cols ≠ 0 := (Int.mul_pos hr hc).ne.symm
  have h1 : ¬ (Mat.header.data.isSome ∧ Mat.header.channels = channels ∧
      Mat.header.rows = rows ∧ Mat.header.cols = cols) := by
    simp [Mat.header]
  unfold Mat.alloc Mat.create
  rw [if_neg h1, if_neg (not_lt.mpr hc.le), if_neg (not_lt.mpr hr.le), if_neg hne]
  simp

theorem initialize_granted (s : FrameProcessor) (width height : Int) (alloc : Allocator)
    (hw : 0 < width) (hh : 0 < height)
    (h0 : alloc 0 (Mat.byteSize height width 3) = true)
    (h1 : alloc 1 (Mat.byteSize height width 1) = true)
    (h2 : alloc 2 (Mat.byteSize height width 1) = true) :
    FrameProcessor.initialize s width height alloc =
      (true,
        { s with
          frameWidth := width, frameHeight := height, initialized := true,
          workingMat1 := ⟨height, width, 3,
            some (List.replicate (Mat.byteSize height width 3) 0)⟩,
          workingMat2 := ⟨height, width, 1,
            some (List.replicate (Mat.byteSize height width 1) 0)⟩,
          grayMat := ⟨height, width, 1,
            some (List.replicate (Mat.byteSize height width 1) 0)⟩ }) := by
  have hdim : ¬ (width ≤ 0 ∨ height ≤ 0) := by omega
  unfold FrameProcessor.initialize
  rw [if_neg hdim, h0, h1, h2]
  simp only [alloc_granted _ _ _ hh hw]

theorem cvtColor_gray_granted (K : PixelKernels) (src dst : Mat) (code : ColorConversionCodes)
    (hcode : code = .COLOR_RGB2GRAY ∨ code = .COLOR_RGBA2GRAY)
    (hne : src.empty = false) (hr : 0 < src.rows) (hc : 0 < src.cols)
    (hch : src.channels = 3 ∨ src.channels = 4) :
    cvtColor K src dst code true = .ok ⟨src.rows, src.cols, 1, some (grayPixels src)⟩ := by
  unfold cvtColor
  rcases hcode with rfl | rfl <;> simp [hne, hch, fill_granted _ _ _ _ _ hr hc]

theorem grayscale_granted (K : PixelKernels) (s : FrameProcessor) (input output : Mat)
    (c0 c1 : Int) (alloc : Allocator) (hinit : s.initialized = true)
    (hne : input.empty = false) (hr : 0 < input.rows) (hc : 0 < input.cols)
    (hch : input.channels = 1 ∨ input.channels = 3 ∨ input.channels = 4)
    (hg : alloc 0 (Mat.byteSize input.rows input.cols 1) = true) :
    (s.processFrameGrayscale K input output c0 c1 alloc).1 = true ∧
      (s.processFrameGrayscale K input output c0 c1 alloc).2.2.rows = input.rows ∧
      (s.processFrameGrayscale K input output c0 c1 alloc).2.2.cols = input.cols := by
  unfold FrameProcessor.processFrameGrayscale
  rcases hch with h | h | h
  · simp [hinit, hne, h, Mat.copyTo, hg, fill_granted _ _ _ _ _ hr hc]
  · simp [hinit, hne, h, hg, cvtColor_gray_granted K input output _ (Or.inl rfl) hne hr hc (Or.inl h)]
  · simp [hinit, hne, h, hg, cvtColor_gray_granted K input output _ (Or.inr rfl) hne hr hc (Or.inr h)]

theorem canny_granted (K : PixelKernels) (s : FrameProcessor) (input output : Mat)
    (t1 t2 : Double) (c0 c1 : Int) (alloc : Allocator) (hinit : s.initialized = true)
    (hne : input.empty = false) (hr : 0 < input.rows) (hc : 0 < input.cols)
    (hch : input.channels = 1 ∨ input.channels = 3 ∨ input.channels = 4)
    (hg : ∀ k, alloc k (Mat.byteSize input.rows input.cols 1) = true) :
    (s.processFrameCanny K input output t1 t2 c0 c1 alloc).1 = true ∧
      (s.processFrameCanny K input output t1 t2 c0 c1 alloc).2.2.rows = input.rows ∧
      (s.processFrameCanny K input output t1 t2 c0 c1 alloc).2.2.cols = input.cols := by
  have hempty : ∀ px ch, (Mat.mk input.rows input.cols ch (some px)).empty = false := by
    intro px ch
    have : input.rows * input.cols ≠ 0 := (Int.mul_pos hr hc).ne.symm
    simp [Mat.empty, Mat.total, this]
  unfold FrameProcessor.processFrameCanny
  rcases hch with h | h | h
  · simp [hinit, hne, h, hg, GaussianBlur, Canny, fill_granted _ _ _ _ _ hr hc, hempty]
  · simp [hinit, hne, h, hg, GaussianBlur, Canny, fill_granted _ _ _ _ _ hr hc, hempty,
      cvtColor_gray_granted K input Mat.header _ (Or.inl rfl) hne hr hc (Or.inl h)]
  · simp [hinit, hne, h, hg, GaussianBlur, Canny, fill_granted _ _ _ _ _ hr hc, hempty,
      cvtColor_gray_granted K input Mat.header _ (Or.inr rfl) hne hr hc (Or.inr h)]

theorem initialize_true_state (s : FrameProcessor) (width height : Int) (alloc : Allocator)
    (h : ( FrameProcessor.initialize s width height alloc).1 = true) :
    (0 < width ∧ 0 < height) ∧
      ( FrameProcessor.initialize s width height alloc).2.initialized = true ∧
      ( FrameProcessor.initialize s width height alloc).2.processedFrameCount
        = s.processedFrameCount := by
  unfold FrameProcessor.initialize at h ⊢
  split
  · rename_i hbad
    simp [hbad] at h
  · rename_i hgood
    simp only [if_neg hgood] at h
    refine ⟨by omega, ?_⟩
    revert h
    simp only
    split
    · simp
    · split
      · simp
      · split <;> simp

theorem fill_ok_data (dst : Mat) (rows cols : Int) (channels : Nat) (pixels : List Nat)
    (granted : Bool) (d : Mat) (hne : rows * cols ≠ 0)
    (h : Mat.fill dst rows cols channels pixels granted = .ok d) :
    d.data = some pixels := by
  unfold Mat.fill Mat.create at h
  by_cases h1 : dst.data.isSome ∧ dst.channels = channels ∧ dst.rows = rows ∧ dst.cols = cols
  · rw [if_pos h1] at h
    obtain ⟨m, hm⟩ := Option.isSome_iff_exists.mp h1.1
    cases granted <;> simp at h
    subst h
    simp [hm]
  · rw [if_neg h1, if_neg hne] at h
    cases granted <;> split_ifs at h <;> simp at h
    all_goals (subst h; simp)

theorem cvtColor_gray_data (K : PixelKernels) (src dst out : Mat) (granted : Bool)
    (h : cvtColor K src dst .COLOR_RGB2GRAY granted = .ok out) :
    out.data = some (grayPixels src) := by
  unfold cvtColor at h
  split at h
  · simp at h
  · rename_i hne
    simp only at h
    have htot : src.rows * src.cols ≠ 0 := by
      intro h0
      apply hne
      simp [Mat.empty, Mat.total, h0]
    split at h
    · exact fill_ok_data _ _ _ _ _ _ _ htot h
    · simp at h

theorem grayPixels_white (src : Mat) (hch : src.channels = 3)
    (hwhite : ∀ i, i < 3 * src.total.toNat → src.byteAt i = 255) :
    grayPixels src = List.replicate src.total.toNat 255 := by
  unfold grayPixels
  rw [List.eq_replicate_iff]
  refine ⟨by simp, ?_⟩
  intro p hp
  obtain ⟨i, hi, rfl⟩ := List.mem_map.mp hp
  have hi' : i < src.total.toNat := List.mem_range.mp hi
  rw [hch, hwhite (3 * i) (by omega), hwhite (3 * i + 1) (by omega),
    hwhite (3 * i + 2) (by omega)]
  decide

theorem alloc_some_dims (rows cols : Int) (channels : Nat) (granted : Bool) (m : Mat)
    (h : Mat.alloc rows cols channels granted = some m) : m.rows = rows ∧ m.cols = cols := by
  unfold Mat.alloc Mat.create at h
  split_ifs at h with h1 h2 h3 h4 h5 <;> simp at h
  · simp [Mat.header] at h1
  all_goals (subst h; simp)

theorem initialize_true_shape (s : FrameProcessor) (width height : Int) (alloc : Allocator)
    (h : ( FrameProcessor.initialize s width height alloc).1 = true) :
    (0 < width ∧ 0 < height) ∧
      ( FrameProcessor.initialize s width height alloc).2.frameWidth = width ∧
      ( FrameProcessor.initialize s width height alloc).2.frameHeight = height ∧
      (( FrameProcessor.initialize s width height alloc).2.workingMat2.rows = height ∧
        ( FrameProcessor.initialize s width height alloc).2.workingMat2.cols = width) ∧
      (( FrameProcessor.initialize s width height alloc).2.grayMat.rows = height ∧
        ( FrameProcessor.initialize s width height alloc).2.grayMat.cols = width) := by
  unfold FrameProcessor.initialize at h ⊢
  split
  · rename_i hbad
    simp [hbad] at h
  · rename_i hgood
    simp only [if_neg hgood] at h
    refine ⟨by omega, ?_⟩
    revert h
    simp only
    split
    · simp
    · split
      · simp
      · rename_i m2 hm2
        split
        · simp
        · rename_i m3 hm3
          intro _
          exact ⟨rfl, rfl, alloc_some_dims _ _ _ _ _ hm2, alloc_some_dims _ _ _ _ _ hm3⟩

theorem canny_frame (K : PixelKernels) (s : FrameProcessor) (input output : Mat)
    (t1 t2 : Double) (c0 c1 : Int) (alloc : Allocator) :
    (s.processFrameCanny K input output t1 t2 c0 c1 alloc).2.1.frameWidth = s.frameWidth ∧
      (s.processFrameCanny K input output t1 t2 c0 c1 alloc).2.1.frameHeight = s.frameHeight ∧
      (s.processFrameCanny K input output t1 t2 c0 c1 alloc).2.1.grayMat = s.grayMat := by
  unfold FrameProcessor.processFrameCanny
  split
  · exact ⟨rfl, rfl, rfl⟩
  · simp only
    split
    · exact ⟨rfl, rfl, rfl⟩
    · split
      · exact ⟨rfl, rfl, rfl⟩
      · split <;> exact ⟨rfl, rfl, rfl⟩

theorem cvtColor_ok_dims (K : PixelKernels) (src dst out : Mat) (code : ColorConversionCodes)
    (hcode : code = .COLOR_RGB2GRAY ∨ code = .COLOR_RGBA2GRAY) (granted : Bool)
    (h : cvtColor K src dst code granted = .ok out) :
    out.rows = src.rows ∧ out.cols = src.cols := by
  unfold cvtColor at h
  split at h
  · simp at h
  · rcases hcode with rfl | rfl
    all_goals
      simp only at h
      split at h
      · exact fill_ok_dims _ _ _ _ _ _ _ h
      · simp at h

theorem blur_dims (K : PixelKernels) (src dst : Mat) (granted : Bool)
    (hr : 0 ≤ src.rows) (hc : 0 ≤ src.cols) (hdst : dst.rows = src.rows ∧ dst.cols = src.cols) :
    ∀ d, (GaussianBlur K src dst granted = .ok d ∨ GaussianBlur K src dst granted = .error d) →
      d.rows = src.rows ∧ d.cols = src.cols := by
  intro d h
  unfold GaussianBlur at h
  split at h
  · rcases h with h | h
    · simp at h
    · simp at h
      subst h
      exact hdst
  · rcases h with h | h
    · exact fill_ok_dims _ _ _ _ _ _ _ h
    · exact fill_error_dims _ _ _ _ _ _ _ hr hc h

theorem canny_working (K : PixelKernels) (s : FrameProcessor) (input output : Mat)
    (t1 t2 : Double) (c0 c1 : Int) (alloc : Allocator)
    (hr : 0 ≤ s.frameHeight) (hc : 0 ≤ s.frameWidth)
    (hin : s.initialized = true → input.empty = false →
      input.rows = s.frameHeight ∧ input.cols = s.frameWidth)
    (hw : s.workingMat2.rows = s.frameHeight ∧ s.workingMat2.cols = s.frameWidth) :
    (s.processFrameCanny K input output t1 t2 c0 c1 alloc).2.1.workingMat2.rows
        = s.frameHeight ∧
      (s.processFrameCanny K input output t1 t2 c0 c1 alloc).2.1.workingMat2.cols
        = s.frameWidth := by
  unfold FrameProcessor.processFrameCanny
  split
  · exact hw
  · rename_i hguard
    simp only [Bool.or_eq_true, Bool.not_eq_true', not_or, Bool.not_eq_false,
      Bool.not_eq_true] at hguard
    obtain ⟨hi, hj⟩ := hin hguard.1 hguard.2
    simp only
    split
    · exact hw
    · rename_i grayFrame hgray
      have hgdims : grayFrame.rows = s.frameHeight ∧ grayFrame.cols = s.frameWidth := by
        split_ifs at hgray with h3 h4
        · have := cvtColor_ok_dims K _ _ _ _ (Or.inl rfl) _ hgray
          exact ⟨this.1.trans hi, this.2.trans hj⟩
        · have := cvtColor_ok_dims K _ _ _ _ (Or.inr rfl) _ hgray
          exact ⟨this.1.trans hi, this.2.trans hj⟩
        · simp at hgray
          subst hgray
          exact ⟨hi, hj⟩
      have hb := blur_dims K grayFrame s.workingMat2
        (alloc 1 (Mat.byteSize grayFrame.rows grayFrame.cols grayFrame.channels))
        (by omega) (by omega) ⟨hw.1.trans hgdims.1.symm, hw.2.trans hgdims.2.symm⟩
      split
      · rename_i blurred hblur
        have := hb blurred (Or.inr hblur)
        exact ⟨this.1.trans hgdims.1, this.2.trans hgdims.2⟩
      · rename_i blurred hblur
        have := hb blurred (Or.inl hblur)
        split <;> exact ⟨this.1.trans hgdims.1, this.2.trans hgdims.2⟩

theorem grayscale_frame (K : PixelKernels) (s : FrameProcessor) (input output : Mat)
    (c0 c1 : Int) (alloc : Allocator) :
    (s.processFrameGrayscale K input output c0 c1 alloc).2.1.frameWidth = s.frameWidth ∧
      (s.processFrameGrayscale K input output c0 c1 alloc).2.1.frameHeight = s.frameHeight ∧
      (s.processFrameGrayscale K input output c0 c1 alloc).2.1.workingMat2 = s.workingMat2 ∧
      (s.processFrameGrayscale K input output c0 c1 alloc).2.1.grayMat = s.grayMat := by
  unfold FrameProcessor.processFrameGrayscale
  split
  · exact ⟨rfl, rfl, rfl, rfl⟩
  · simp only
    split <;> exact ⟨rfl, rfl, rfl, rfl⟩

theorem call_keeps_sizing (K : PixelKernels) (s : FrameProcessor) (c : Call)
    (hinv : (0 ≤ s.frameWidth ∧ 0 ≤ s.frameHeight) ∧ s.scratchSized)
    (hc : c.negotiated s) :
    (0 ≤ (s.call K c).2.frameWidth ∧ 0 ≤ (s.call K c).2.frameHeight) ∧
      (s.call K c).2.scratchSized := by
  obtain ⟨⟨hw, hh⟩, hsz⟩ := hinv
  cases c with
  | init w h a =>
    simp only [FrameProcessor.call]
    by_cases hok : ( FrameProcessor.initialize s w h a).1 = true
    · obtain ⟨hpos, hfw, hfh, hw2, hg⟩ := initialize_true_shape s w h a hok
      refine ⟨⟨by omega, by omega⟩, ?_⟩
      intro _
      rw [hfw, hfh]
      exact ⟨hw2, hg⟩
    · have hbad : w ≤ 0 ∨ h ≤ 0 := by
        rcases hc with h1 | h1 | h1
        · exact Or.inl h1
        · exact Or.inr h1
        · exact absurd h1 hok
      rw [initialize_invalid_eq s w h a hbad]
      exact ⟨⟨hw, hh⟩, hsz⟩
  | canny i o t1 t2 c0 c1 a =>
    simp only [FrameProcessor.call]
    obtain ⟨hfw, hfh, hgm⟩ := canny_frame K s i o t1 t2 c0 c1 a
    refine ⟨⟨by omega, by omega⟩, ?_⟩
    intro hflag
    rw [canny_flag] at hflag
    obtain ⟨hw2, hg⟩ := hsz hflag
    rw [hfw, hfh, hgm]
    exact ⟨canny_working K s i o t1 t2 c0 c1 a hh hw hc hw2, hg⟩
  | grayscale i o c0 c1 a =>
    simp only [FrameProcessor.call]
    obtain ⟨hfw, hfh, hwm, hgm⟩ := grayscale_frame K s i o c0 c1 a
    refine ⟨⟨by omega, by omega⟩, ?_⟩
    intro hflag
    rw [grayscale_flag] at hflag
    rw [hfw, hfh, hwm, hgm]
    exact hsz hflag
  | yuv420ToRGB d o w h a =>
    simp only [FrameProcessor.call, yuv_state]
    exact ⟨⟨hw, hh⟩, hsz⟩
  | rgbToGray i o a =>
    simp only [FrameProcessor.call, rgbToGray_state]
    exact ⟨⟨hw, hh⟩, hsz⟩

theorem run_keeps_sizing (K : PixelKernels) (calls : List Call) :
    ∀ s : FrameProcessor, ((0 ≤ s.frameWidth ∧ 0 ≤ s.frameHeight) ∧ s.scratchSized) →
      FrameProcessor.negotiatedRun K s calls →
      ((0 ≤ ( FrameProcessor.run K s calls).frameWidth ∧
          0 ≤ ( FrameProcessor.run K s calls).frameHeight) ∧
        ( FrameProcessor.run K s calls).scratchSized) := by
  induction calls with
  | nil => intro s hinv _; exact hinv
  | cons c cs ih =>
    intro s hinv hrun
    exact ih _ (call_keeps_sizing K s c hinv hrun.1) hrun.2

/-! ## The claims -/

/-- C1: on an engine on which no `initialize` call has ever succeeded, that is the engine
reached from a freshly constructed one by any sequence of calls none of whose `initialize`
calls returned success, `processFrameCanny` and `processFrameGrayscale` return failure for
every input buffer, every prior output, every pair of thresholds and every environment. -/
theorem process_fails_before_initialize (K : PixelKernels) (calls : List Call)
    (hnever : FrameProcessor.everInitialized K FrameProcessor.new calls = false)
    (input output : Mat) (t1 t2 : Double) (c0 c1 : Int) (alloc : Allocator) :
    (( FrameProcessor.run K FrameProcessor.new calls).processFrameCanny K input output
        t1 t2 c0 c1 alloc).1 = false ∧
      (( FrameProcessor.run K FrameProcessor.new calls).processFrameGrayscale K input output
        c0 c1 alloc).1 = false := by
  have hflag := run_uninitialized K calls FrameProcessor.new rfl hnever
  rw [canny_uninitialized K _ input output t1 t2 c0 c1 alloc hflag,
    grayscale_uninitialized K _ input output c0 c1 alloc hflag]
  exact ⟨rfl, rfl⟩

/-- Witness of C1: after `initialize(-1, 10)` on a fresh engine both transforms fail on a
well-formed 4x4 RGB frame. -/
theorem process_fails_before_initialize_witness :
    FrameProcessor.everInitialized sampleKernels FrameProcessor.new
        [Call.init (-1) 10 grantAll] = false ∧
      (( FrameProcessor.run sampleKernels FrameProcessor.new
          [Call.init (-1) 10 grantAll]).processFrameCanny sampleKernels
          (Mat.uniform 4 4 3 255) Mat.header ⟨0⟩ ⟨0⟩ 0 1 grantAll).1 = false ∧
      (( FrameProcessor.run sampleKernels FrameProcessor.new
          [Call.init (-1) 10 grantAll]).processFrameGrayscale sampleKernels
          (Mat.uniform 4 4 3 255) Mat.header 0 1 grantAll).1 = false :=
  ⟨by decide,
    process_fails_before_initialize sampleKernels [Call.init (-1) 10 grantAll] (by decide)
      (Mat.uniform 4 4 3 255) Mat.header ⟨0⟩ ⟨0⟩ 0 1 grantAll⟩

/-- C2: for every engine state and every `(width, height)` with `width <= 0` or
`height <= 0`, `initialize` returns failure and the engine afterwards is the engine before
the call: dimensions, flag, scratch buffers and statistics are untouched, so an uninitialized
engine stays uninitialized and no buffer is allocated. -/
theorem initialize_invalid_unchanged (s : FrameProcessor) (width height : Int)
    (alloc : Allocator) (h : width ≤ 0 ∨ height ≤ 0) :
    FrameProcessor.initialize s width height alloc = (false, s) :=
  initialize_invalid_eq s width height alloc h

/-- Witness of C2: `initialize(-1, 10)` on a fresh engine. -/
theorem initialize_invalid_unchanged_witness :
    ((-1 : Int) ≤ 0 ∨ (10 : Int) ≤ 0) ∧
      FrameProcessor.initialize FrameProcessor.new (-1) 10 grantAll
        = (false, FrameProcessor.new) :=
  ⟨by decide, initialize_invalid_unchanged FrameProcessor.new (-1) 10 grantAll (by decide)⟩

/-- C3 fails as stated: on an engine initialized for 4x4 frames whose 32-bit counter stands at
`INT_MAX`, `processFrameGrayscale` and `processFrameCanny` on a 4x4 RGB frame return success
and leave `processedFrameCount` at `INT_MIN`, not at the previous value plus 1. -/
theorem frame_count_wraps_at_int_max :
    (FrameProcessor.atIntMax.initialized = true ∧
      FrameProcessor.atIntMax.processedFrameCount = 2147483647) ∧
    (( FrameProcessor.atIntMax.processFrameGrayscale sampleKernels (Mat.uniform 4 4 3 255)
          Mat.header 0 1 grantAll).1 = true ∧
      ( FrameProcessor.atIntMax.processFrameGrayscale sampleKernels (Mat.uniform 4 4 3 255)
          Mat.header 0 1 grantAll).2.1.processedFrameCount = -2147483648 ∧
      ( FrameProcessor.atIntMax.processFrameGrayscale sampleKernels (Mat.uniform 4 4 3 255)
          Mat.header 0 1 grantAll).2.1.processedFrameCount
        ≠ FrameProcessor.atIntMax.processedFrameCount + 1) ∧
    (( FrameProcessor.atIntMax.processFrameCanny sampleKernels (Mat.uniform 4 4 3 255)
          Mat.header ⟨0⟩ ⟨0⟩ 0 1 grantAll).1 = true ∧
      ( FrameProcessor.atIntMax.processFrameCanny sampleKernels (Mat.uniform 4 4 3 255)
          Mat.header ⟨0⟩ ⟨0⟩ 0 1 grantAll).2.1.processedFrameCount
        ≠ FrameProcessor.atIntMax.processedFrameCount + 1) := by
  decide

/-- C3, amended: for every engine state, input, output, thresholds, clock readings and
outcome of the internal steps, a call of `processFrameCanny` or `processFrameGrayscale`
either returns failure and leaves `processedFrameCount` and `lastProcessingTime` exactly as
they were, or returns success and leaves `processedFrameCount` equal to its previous value
plus exactly 1 whenever that previous value is not `INT_MAX` (2147483647). -/
theorem process_statistics (K : PixelKernels) (s : FrameProcessor) (input output : Mat)
    (t1 t2 : Double) (c0 c1 : Int) (alloc : Allocator) :
    (((s.processFrameCanny K input output t1 t2 c0 c1 alloc).1 = true ∧
        (s.processedFrameCount ≠ 2147483647 →
          (s.processFrameCanny K input output t1 t2 c0 c1 alloc).2.1.processedFrameCount
            = s.processedFrameCount + 1)) ∨
      ((s.processFrameCanny K input output t1 t2 c0 c1 alloc).1 = false ∧
        (s.processFrameCanny K input output t1 t2 c0 c1 alloc).2.1.processedFrameCount
          = s.processedFrameCount ∧
        (s.processFrameCanny K input output t1 t2 c0 c1 alloc).2.1.lastProcessingTime
          = s.lastProcessingTime)) ∧
    (((s.processFrameGrayscale K input output c0 c1 alloc).1 = true ∧
        (s.processedFrameCount ≠ 2147483647 →
          (s.processFrameGrayscale K input output c0 c1 alloc).2.1.processedFrameCount
            = s.processedFrameCount + 1)) ∨
      ((s.processFrameGrayscale K input output c0 c1 alloc).1 = false ∧
        (s.processFrameGrayscale K input output c0 c1 alloc).2.1.processedFrameCount
          = s.processedFrameCount ∧
        (s.processFrameGrayscale K input output c0 c1 alloc).2.1.lastProcessingTime
          = s.lastProcessingTime)) := by
  constructor
  · rcases canny_statistics K s input output t1 t2 c0 c1 alloc with hs | hf
    · exact Or.inl ⟨hs.1, fun hne => hs.2.trans (incrInt32_of_ne _ hne)⟩
    · exact Or.inr hf
  · rcases grayscale_statistics K s input output c0 c1 alloc with hs | hf
    · exact Or.inl ⟨hs.1, fun hne => hs.2.trans (incrInt32_of_ne _ hne)⟩
    · exact Or.inr hf

/-- Witness of C3, amended: on a freshly initialized 4x4 engine a grayscale pass on a 4x4 RGB
frame succeeds and takes the count from 0 to 1. -/
theorem process_statistics_witness :
    (( FrameProcessor.initialize FrameProcessor.new 4 4 grantAll).2.processFrameGrayscale
        sampleKernels (Mat.uniform 4 4 3 255) Mat.header 0 1 grantAll).1 = true ∧
      (( FrameProcessor.initialize FrameProcessor.new 4 4 grantAll).2.processFrameGrayscale
        sampleKernels (Mat.uniform 4 4 3 255) Mat.header 0 1
        grantAll).2.1.processedFrameCount
        = ( FrameProcessor.initialize FrameProcessor.new 4 4
            grantAll).2.processedFrameCount + 1 :=
  ⟨by decide,
    ((process_statistics sampleKernels
      ( FrameProcessor.initialize FrameProcessor.new 4 4 grantAll).2 (Mat.uniform 4 4 3 255)
      Mat.header ⟨0⟩ ⟨0⟩ 0 1 grantAll).2.resolve_right (by decide)).2 (by decide)⟩

/-- C4 fails as stated: on a fresh engine `initialize(2147483647, 2147483647)`, whose
dimensions are positive, returns failure in a process with a 47-bit address space, the first
scratch buffer alone asking for more than `2^63` bytes. -/
theorem initialize_valid_dimensions_can_fail :
    ((0 : Int) < 2147483647 ∧ 2 ^ 63 < Mat.byteSize 2147483647 2147483647 3) ∧
      ( FrameProcessor.initialize FrameProcessor.new 2147483647 2147483647
          addressSpace47).1 = false := by
  decide

/-- C4, amended: for every `width > 0` and `height > 0` for which the three scratch buffers
are granted, `initialize(width, height)` returns success and sets `initialized = true`,
`frameWidth = width`, `frameHeight = height`; and on the engine it leaves,
`processFrameGrayscale` and `processFrameCanny` on any non-empty `width x height` input of 1,
3 or 4 channels return success with an output of `height` rows and `width` columns, whenever
the storage requests of their steps (each of `width * height` bytes) are granted. -/
theorem initialize_then_process (K : PixelKernels) (s : FrameProcessor) (width height : Int)
    (alloc : Allocator) (hw : 0 < width) (hh : 0 < height)
    (h0 : alloc 0 (Mat.byteSize height width 3) = true)
    (h1 : alloc 1 (Mat.byteSize height width 1) = true)
    (h2 : alloc 2 (Mat.byteSize height width 1) = true) :
    ( FrameProcessor.initialize s width height alloc).1 = true ∧
      ( FrameProcessor.initialize s width height alloc).2.initialized = true ∧
      ( FrameProcessor.initialize s width height alloc).2.frameWidth = width ∧
      ( FrameProcessor.initialize s width height alloc).2.frameHeight = height ∧
      ∀ (input output : Mat) (t1 t2 : Double) (c0 c1 : Int) (a : Allocator),
        input.empty = false → input.rows = height → input.cols = width →
        (input.channels = 1 ∨ input.channels = 3 ∨ input.channels = 4) →
        (∀ k, a k (Mat.byteSize height width 1) = true) →
        ((( FrameProcessor.initialize s width height alloc).2.processFrameGrayscale K
              input output c0 c1 a).1 = true ∧
          (( FrameProcessor.initialize s width height alloc).2.processFrameGrayscale K
              input output c0 c1 a).2.2.rows = height ∧
          (( FrameProcessor.initialize s width height alloc).2.processFrameGrayscale K
              input output c0 c1 a).2.2.cols = width) ∧
        ((( FrameProcessor.initialize s width height alloc).2.processFrameCanny K
              input output t1 t2 c0 c1 a).1 = true ∧
          (( FrameProcessor.initialize s width height alloc).2.processFrameCanny K
              input output t1 t2 c0 c1 a).2.2.rows = height ∧
          (( FrameProcessor.initialize s width height alloc).2.processFrameCanny K
              input output t1 t2 c0 c1 a).2.2.cols = width) := by
  rw [initialize_granted s width height alloc hw hh h0 h1 h2]
  refine ⟨rfl, rfl, rfl, rfl, ?_⟩
  intro input output t1 t2 c0 c1 a hne hr hc hch hg
  subst hr hc
  exact ⟨grayscale_granted K _ input output c0 c1 a rfl hne hh hw hch (hg 0),
    canny_granted K _ input output t1 t2 c0 c1 a rfl hne hh hw hch hg⟩

/-- Witness of C4, amended: `initialize(4, 4)` on a fresh engine with every request granted,
then `processFrameCanny` on a 4x4 RGB frame. -/
theorem initialize_then_process_witness :
    ((0 : Int) < 4 ∧ grantAll 0 (Mat.byteSize 4 4 3) = true) ∧
      ( FrameProcessor.initialize FrameProcessor.new 4 4 grantAll).1 = true ∧
      (( FrameProcessor.initialize FrameProcessor.new 4 4 grantAll).2.processFrameCanny
          sampleKernels (Mat.uniform 4 4 3 255) Mat.header ⟨0⟩ ⟨0⟩ 0 1 grantAll).2.2.rows = 4 :=
  ⟨by decide,
    (initialize_then_process sampleKernels FrameProcessor.new 4 4 grantAll
      (by decide) (by decide) rfl rfl rfl).1,
    ((initialize_then_process sampleKernels FrameProcessor.new 4 4 grantAll
      (by decide) (by decide) rfl rfl rfl).2.2.2.2
        (Mat.uniform 4 4 3 255) Mat.header ⟨0⟩ ⟨0⟩ 0 1 grantAll (by decide) rfl rfl
        (Or.inr (Or.inl rfl)) (fun _ => rfl)).2.2.1⟩

/-- C6: for every engine state, width, height and prior content of the output buffer,
`convertYUV420ToRGB` with a null `yuvData` pointer returns failure and leaves the output
buffer and every field of the engine, the statistics among them, unchanged. -/
theorem yuv_null_pointer (K : PixelKernels) (s : FrameProcessor) (rgbOutput : Mat)
    (width height : Int) (alloc : Allocator) :
    s.convertYUV420ToRGB K none rgbOutput width height alloc = (false, s, rgbOutput) :=
  rfl

/-- C7 fails as stated: after `initialize(4, 4)` has succeeded on a fresh engine,
`processFrameGrayscale` on the 4x4 3-channel buffer whose every byte is 255 returns failure
when the storage for its output is denied, and `getProcessedFrameCount()` stays 0. -/
theorem white_frame_output_denied :
    ( FrameProcessor.initialize FrameProcessor.new 4 4 grantAll).1 = true ∧
      (( FrameProcessor.initialize FrameProcessor.new 4 4 grantAll).2.processFrameGrayscale
          sampleKernels (Mat.uniform 4 4 3 255) Mat.header 0 1 denyAll).1 = false ∧
      (( FrameProcessor.initialize FrameProcessor.new 4 4 grantAll).2.processFrameGrayscale
          sampleKernels (Mat.uniform 4 4 3 255) Mat.header 0 1
          denyAll).2.1.getProcessedFrameCount = 0 := by
  decide

/-- C7, amended: after `initialize(4, 4)` has succeeded on a fresh engine,
`processFrameGrayscale` on the 4x4 3-channel buffer whose every byte is 255 returns success,
provided the 16-byte storage request for its output is granted, with the 4x4 single-channel
output whose every pixel is 255, and `getProcessedFrameCount()` is then 1. More generally,
whenever the RGB-to-luma step `cvtColor(src, dst, COLOR_RGB2GRAY)` succeeds on a 3-channel
source whose bytes are all 255, every pixel of its result is 255. -/
theorem white_frame_luma (K : PixelKernels) (alloc0 alloc1 : Allocator) (output : Mat)
    (c0 c1 : Int)
    (hinit : ( FrameProcessor.initialize FrameProcessor.new 4 4 alloc0).1 = true)
    (hgrant : alloc1 0 16 = true) :
    ((( FrameProcessor.initialize FrameProcessor.new 4 4 alloc0).2.processFrameGrayscale K
          (Mat.uniform 4 4 3 255) output c0 c1 alloc1).1 = true ∧
      (( FrameProcessor.initialize FrameProcessor.new 4 4 alloc0).2.processFrameGrayscale K
          (Mat.uniform 4 4 3 255) output c0 c1 alloc1).2.2 = Mat.uniform 4 4 1 255 ∧
      (( FrameProcessor.initialize FrameProcessor.new 4 4 alloc0).2.processFrameGrayscale K
          (Mat.uniform 4 4 3 255) output c0 c1 alloc1).2.1.getProcessedFrameCount = 1) ∧
    ∀ (src dst out : Mat) (granted : Bool), src.channels = 3 →
      (∀ i, i < 3 * src.total.toNat → src.byteAt i = 255) →
      cvtColor K src dst .COLOR_RGB2GRAY granted = .ok out →
      out.data = some (List.replicate src.total.toNat 255) := by
  constructor
  · obtain ⟨-, hflag, hcount⟩ := initialize_true_state _ _ _ _ hinit
    have hg : alloc1 0 (Mat.byteSize (Mat.uniform 4 4 3 255).rows
        (Mat.uniform 4 4 3 255).cols 1) = true := hgrant
    have hpix : grayPixels (Mat.uniform 4 4 3 255) = List.replicate 16 255 := by decide
    have hconv := cvtColor_gray_granted K (Mat.uniform 4 4 3 255) output .COLOR_RGB2GRAY
      (Or.inl rfl) (by decide) (by decide) (by decide) (Or.inl rfl)
    have hch : (Mat.uniform 4 4 3 255).channels = 3 := rfl
    have hne : (Mat.uniform 4 4 3 255).empty = false := by decide
    unfold FrameProcessor.processFrameGrayscale
    simp only [hflag, hne, hch, hg, hconv, hpix]
    refine ⟨by simp, by simp [Mat.uniform], ?_⟩
    simp only [FrameProcessor.getProcessedFrameCount, if_true, Bool.not_true, Bool.or_false,
      Bool.false_eq_true, if_false, hcount]
    rfl
  · intro src dst out granted hch hwhite hconv
    rw [cvtColor_gray_data K src dst out granted hconv, grayPixels_white src hch hwhite]

/-- Witness of C7, amended: the scenario with every storage request granted and an output
buffer that was empty before the call. -/
theorem white_frame_luma_witness :
    (( FrameProcessor.initialize FrameProcessor.new 4 4 grantAll).1 = true ∧
        grantAll 0 16 = true) ∧
      (( FrameProcessor.initialize FrameProcessor.new 4 4 grantAll).2.processFrameGrayscale
          sampleKernels (Mat.uniform 4 4 3 255) Mat.header 0 1 grantAll).2.2
        = Mat.uniform 4 4 1 255 ∧
      (( FrameProcessor.initialize FrameProcessor.new 4 4 grantAll).2.processFrameGrayscale
          sampleKernels (Mat.uniform 4 4 3 255) Mat.header 0 1
          grantAll).2.1.getProcessedFrameCount = 1 :=
  ⟨by decide,
    (white_frame_luma sampleKernels grantAll grantAll Mat.header 0 1 (by decide) rfl).1.2⟩

/-- C8 fails as stated: on an engine left Ready by `initialize(4, 4)`, the invalid call
`initialize(-1, 10)` leaves `initialized == true`, and a following `processFrameGrayscale`
on a 4x4 RGB frame returns success. -/
theorem invalid_initialize_keeps_ready :
    ( FrameProcessor.initialize ( FrameProcessor.initialize FrameProcessor.new 4 4 grantAll).2
        (-1) 10 grantAll).2.initialized = true ∧
      (( FrameProcessor.initialize ( FrameProcessor.initialize FrameProcessor.new 4 4 grantAll).2
        (-1) 10 grantAll).2.processFrameGrayscale sampleKernels (Mat.uniform 4 4 3 255)
          Mat.header 0 1 grantAll).1 = true := by
  decide

/-- C8, amended: `initialize(width, height)` with `width <= 0` or `height <= 0` leaves the
`initialized` flag as it was, for every engine state: an engine left Ready by an earlier
successful `initialize` stays Ready, and an Uninitialized engine stays Uninitialized, so that
a following `processFrameGrayscale` or `processFrameCanny` fails. -/
theorem invalid_initialize_keeps_flag (K : PixelKernels) (s : FrameProcessor)
    (width height : Int) (alloc : Allocator) (h : width ≤ 0 ∨ height ≤ 0) :
    ( FrameProcessor.initialize s width height alloc).2.initialized = s.initialized ∧
      (s.initialized = false →
        ∀ (input output : Mat) (t1 t2 : Double) (c0 c1 : Int) (a : Allocator),
          (( FrameProcessor.initialize s width height alloc).2.processFrameGrayscale K
              input output c0 c1 a).1 = false ∧
          (( FrameProcessor.initialize s width height alloc).2.processFrameCanny K
              input output t1 t2 c0 c1 a).1 = false) := by
  rw [initialize_invalid_eq s width height alloc h]
  refine ⟨rfl, ?_⟩
  intro hs input output t1 t2 c0 c1 a
  rw [grayscale_uninitialized K s input output c0 c1 a hs,
    canny_uninitialized K s input output t1 t2 c0 c1 a hs]
  exact ⟨rfl, rfl⟩

/-- Witness of C8, amended: `initialize(-1, 10)` on a fresh engine, then
`processFrameGrayscale` on a 4x4 RGB frame. -/
theorem invalid_initialize_keeps_flag_witness :
    ((-1 : Int) ≤ 0 ∨ (10 : Int) ≤ 0) ∧
      ( FrameProcessor.initialize FrameProcessor.new (-1) 10 grantAll).2.initialized
        = FrameProcessor.new.initialized ∧
      (( FrameProcessor.initialize FrameProcessor.new (-1) 10
          grantAll).2.processFrameGrayscale sampleKernels (Mat.uniform 4 4 3 255)
          Mat.header 0 1 grantAll).1 = false :=
  ⟨by decide,
    (invalid_initialize_keeps_flag sampleKernels FrameProcessor.new (-1) 10 grantAll
      (by decide)).1,
    ((invalid_initialize_keeps_flag sampleKernels FrameProcessor.new (-1) 10 grantAll
      (by decide)).2 rfl (Mat.uniform 4 4 3 255) Mat.header ⟨0⟩ ⟨0⟩ 0 1 grantAll).1⟩

/-- C9 fails as stated: on a fresh engine a successful `convertRGBToGray` (1x1 RGB input)
and a successful `convertYUV420ToRGB` (2x2 frame of 6 bytes) both leave
`getProcessedFrameCount()` at 0, not at the previous value plus 1. -/
theorem conversions_do_not_count :
    (( FrameProcessor.new.convertRGBToGray sampleKernels (Mat.uniform 1 1 3 255) Mat.header
          grantAll).1 = true ∧
      ( FrameProcessor.new.convertRGBToGray sampleKernels (Mat.uniform 1 1 3 255) Mat.header
          grantAll).2.1.getProcessedFrameCount
        ≠ FrameProcessor.new.getProcessedFrameCount + 1) ∧
    (( FrameProcessor.new.convertYUV420ToRGB sampleKernels (some [16, 16, 16, 16, 128, 128])
          Mat.header 2 2 grantAll).1 = true ∧
      ( FrameProcessor.new.convertYUV420ToRGB sampleKernels (some [16, 16, 16, 16, 128, 128])
          Mat.header 2 2 grantAll).2.1.getProcessedFrameCount
        ≠ FrameProcessor.new.getProcessedFrameCount + 1) := by
  decide

/-- C9, amended: `getProcessedFrameCount()` is incremented once per successful call of
`processFrameCanny` or `processFrameGrayscale`, that is it equals its previous value plus 1
whenever that previous value is not `INT_MAX` (2147483647), and a call of
`convertYUV420ToRGB` or `convertRGBToGray`, successful or not, leaves it at its previous
value. -/
theorem frame_count_per_operation (K : PixelKernels) (s : FrameProcessor) (input output : Mat)
    (t1 t2 : Double) (c0 c1 : Int) (yuvData : Option (List Nat)) (width height : Int)
    (alloc : Allocator) :
    ((s.processFrameCanny K input output t1 t2 c0 c1 alloc).1 = true →
      s.getProcessedFrameCount ≠ 2147483647 →
      (s.processFrameCanny K input output t1 t2 c0 c1 alloc).2.1.getProcessedFrameCount
        = s.getProcessedFrameCount + 1) ∧
    ((s.processFrameGrayscale K input output c0 c1 alloc).1 = true →
      s.getProcessedFrameCount ≠ 2147483647 →
      (s.processFrameGrayscale K input output c0 c1 alloc).2.1.getProcessedFrameCount
        = s.getProcessedFrameCount + 1) ∧
    (s.convertYUV420ToRGB K yuvData output width height alloc).2.1.getProcessedFrameCount
      = s.getProcessedFrameCount ∧
    (s.convertRGBToGray K input output alloc).2.1.getProcessedFrameCount
      = s.getProcessedFrameCount := by
  refine ⟨?_, ?_, by rw [yuv_state], by rw [rgbToGray_state]⟩
  · intro h hne
    rcases canny_statistics K s input output t1 t2 c0 c1 alloc with hs | hf
    · exact hs.2.trans (incrInt32_of_ne _ hne)
    · rw [hf.1] at h
      exact absurd h (by decide)
  · intro h hne
    rcases grayscale_statistics K s input output c0 c1 alloc with hs | hf
    · exact hs.2.trans (incrInt32_of_ne _ hne)
    · rw [hf.1] at h
      exact absurd h (by decide)

/-- Witness of C9, amended: a successful `processFrameGrayscale` on an engine initialized
for 4x4 frames takes the count from 0 to 1. -/
theorem frame_count_per_operation_witness :
    ((( FrameProcessor.initialize FrameProcessor.new 4 4 grantAll).2.processFrameGrayscale
        sampleKernels (Mat.uniform 4 4 3 255) Mat.header 0 1 grantAll).1 = true ∧
      ( FrameProcessor.initialize FrameProcessor.new 4 4
          grantAll).2.getProcessedFrameCount ≠ 2147483647) ∧
      (( FrameProcessor.initialize FrameProcessor.new 4 4 grantAll).2.processFrameGrayscale
        sampleKernels (Mat.uniform 4 4 3 255) Mat.header 0 1
        grantAll).2.1.getProcessedFrameCount
        = ( FrameProcessor.initialize FrameProcessor.new 4 4
            grantAll).2.getProcessedFrameCount + 1 :=
  ⟨by decide,
    (frame_count_per_operation sampleKernels
      ( FrameProcessor.initialize FrameProcessor.new 4 4 grantAll).2 (Mat.uniform 4 4 3 255)
      Mat.header ⟨0⟩ ⟨0⟩ 0 1 none 0 0 grantAll).2.1 (by decide) (by decide)⟩

/-- C10 fails as stated: after `initialize(4, 4)` and a successful `processFrameCanny` on a
2x2 single-channel input the engine is initialized with `frameHeight = 4` and
`frameWidth = 4`, while `workingMat2` has 2 rows and 2 columns. -/
theorem canny_resizes_scratch :
    ( FrameProcessor.call sampleKernels ( FrameProcessor.initialize FrameProcessor.new 4 4 grantAll).2
        (Call.canny (Mat.uniform 2 2 1 0) Mat.header ⟨0⟩ ⟨0⟩ 0 1 grantAll)).1 = true ∧
      (( FrameProcessor.run sampleKernels FrameProcessor.new
        [Call.init 4 4 grantAll,
          Call.canny (Mat.uniform 2 2 1 0) Mat.header ⟨0⟩ ⟨0⟩ 0 1 grantAll]).initialized = true ∧
      ( FrameProcessor.run sampleKernels FrameProcessor.new
        [Call.init 4 4 grantAll,
          Call.canny (Mat.uniform 2 2 1 0) Mat.header ⟨0⟩ ⟨0⟩ 0 1 grantAll]).frameHeight = 4 ∧
      ( FrameProcessor.run sampleKernels FrameProcessor.new
        [Call.init 4 4 grantAll,
          Call.canny (Mat.uniform 2 2 1 0) Mat.header ⟨0⟩ ⟨0⟩ 0 1 grantAll]).frameWidth = 4 ∧
      ( FrameProcessor.run sampleKernels FrameProcessor.new
        [Call.init 4 4 grantAll,
          Call.canny (Mat.uniform 2 2 1 0) Mat.header ⟨0⟩ ⟨0⟩ 0 1 grantAll]).workingMat2.rows = 2 ∧
      ( FrameProcessor.run sampleKernels FrameProcessor.new
        [Call.init 4 4 grantAll,
          Call.canny (Mat.uniform 2 2 1 0) Mat.header ⟨0⟩ ⟨0⟩ 0 1 grantAll]).workingMat2.cols = 2) ∧
      ¬ ( FrameProcessor.run sampleKernels FrameProcessor.new
        [Call.init 4 4 grantAll,
          Call.canny (Mat.uniform 2 2 1 0) Mat.header ⟨0⟩ ⟨0⟩ 0 1 grantAll]).scratchSized := by
  decide

/-- C10, amended: after any sequence of `initialize`, `processFrameCanny`,
`processFrameGrayscale`, `convertYUV420ToRGB` and `convertRGBToGray` calls on a fresh engine,
in which every `initialize` call with valid dimensions obtains its three buffers and every
`processFrameCanny` call that passes the entry check is given an input of `frameHeight` rows
and `frameWidth` columns, whenever `initialized == true` the scratch buffers `workingMat2`
and `grayMat` have exactly `frameHeight` rows and `frameWidth` columns. The inputs of the
other calls, the outcome of every internal step of the transforms and the arguments of
invalid `initialize` calls are arbitrary. -/
theorem scratch_sized_on_negotiated_runs (K : PixelKernels) (calls : List Call)
    (h : FrameProcessor.negotiatedRun K FrameProcessor.new calls) :
    ( FrameProcessor.run K FrameProcessor.new calls).scratchSized :=
  (run_keeps_sizing K calls FrameProcessor.new
    ⟨⟨le_refl _, le_refl _⟩, fun hflag => absurd hflag (by decide)⟩ h).2

/-- Witness of C10, amended: `initialize(4, 4)`, a Canny pass on a 4x4 RGB frame, an invalid
`initialize(-1, 10)` and a grayscale pass on a 2x2 frame. -/
theorem scratch_sized_on_negotiated_runs_witness :
    FrameProcessor.negotiatedRun sampleKernels FrameProcessor.new
        [Call.init 4 4 grantAll,
          Call.canny (Mat.uniform 4 4 3 255) Mat.header ⟨0⟩ ⟨0⟩ 0 1 grantAll,
          Call.init (-1) 10 grantAll,
          Call.grayscale (Mat.uniform 2 2 1 0) Mat.header 0 1 grantAll] ∧
      ( FrameProcessor.run sampleKernels FrameProcessor.new
        [Call.init 4 4 grantAll,
          Call.canny (Mat.uniform 4 4 3 255) Mat.header ⟨0⟩ ⟨0⟩ 0 1 grantAll,
          Call.init (-1) 10 grantAll,
          Call.grayscale (Mat.uniform 2 2 1 0) Mat.header 0 1 grantAll]).scratchSized :=
  ⟨by decide, scratch_sized_on_negotiated_runs sampleKernels _ (by decide)⟩
